import Mathlib

/-!
Shallow embedding of the processor-affinity-optimization core (src/src/lib.rs).

Machine model: the target is 64-bit Windows, so `usize` is modelled as a
natural number reduced modulo `2 ^ 64` where the code can overflow.  The OS
calls (`OpenProcess`, `GetProcessAffinityMask`, `SetProcessAffinityMask`,
`CloseHandle`, `GetLastError`) are modelled by an oracle structure `OS`
fixing their outcomes, and each run of `set_processor_affinity` additionally
returns the ordered list of OS calls it issued, so that claims about which
calls happen (and with which arguments) can be stated.
-/

namespace AffinityOpt

/-- `2 ^ 64`: one past the largest `usize` value on the 64-bit target. -/
def TWO64 : Nat := 2 ^ 64

/-- All 64 bits set: the value of `usize::MAX`, and of `-1` cast to a pointer. -/
def MASK64 : Nat := 2 ^ 64 - 1

/-- `struct HANDLE(*const c_void)` — the raw pointer value as a 64-bit natural. -/
structure HANDLE where
  raw : Nat
deriving DecidableEq

/-- `HANDLE::is_valid`: the value is neither `0` nor `-1 as *const c_void`. -/
def HANDLE.is_valid (h : HANDLE) : Bool :=
  h.raw != 0 && h.raw != MASK64

/-- `std::io::ErrorKind` (only the kinds this crate constructs). -/
inductive ErrorKind where
  | PermissionDenied
  | InvalidData
deriving DecidableEq

/-- A `std::io::Error` as constructed by `Error::new(kind, msg)`. -/
structure IoError where
  kind : ErrorKind
  msg : String
deriving DecidableEq

/-- `std::io::Result<()>` specialised to the error values this crate builds. -/
inductive AffinityResult where
  | ok
  | err (e : IoError)
deriving DecidableEq

/-- Uppercase-hex rendering of a `u32`, as the `\x7b:X\x7d` format does. -/
def toHexUpper (n : Nat) : String :=
  String.mk ((Nat.toDigits 16 n).map Char.toUpper)

/-- Message of the `OpenProcess`-failure error (lib.rs:142). -/
def msgOpen (e : Nat) : String :=
  "Unable to open process. Last Error: " ++ toHexUpper e

/-- Message of the `GetProcessAffinityMask`-failure error (lib.rs:154). -/
def msgGet (e : Nat) : String :=
  "Unable to get process affinity mask. Last Error: " ++ toHexUpper e

/-- Message of the zero-new-mask error (lib.rs:170). -/
def msgOneCpu (e : Nat) : String :=
  "Only one CPU detected. Cannot change affinity. Last Error: " ++ toHexUpper e

/-- Message of the `SetProcessAffinityMask`-failure error (lib.rs:179). -/
def msgSet (e : Nat) : String :=
  "Unable to set process affinity mask. Last Error: " ++ toHexUpper e

/-- One OS call issued by `set_processor_affinity`.  `setAffinity` records the
mask argument passed to `SetProcessAffinityMask`; `closeHandle` is the release
performed by `OwnedHandle`'s `Drop` impl. -/
inductive Event where
  | openProcess
  | getAffinity
  | setAffinity (mask : Nat)
  | closeHandle
deriving DecidableEq

/-- Oracle for the OS calls made by one invocation of `set_processor_affinity`:
the raw handle `OpenProcess` returns, whether `GetProcessAffinityMask`
succeeds and the two masks it reports, whether `SetProcessAffinityMask`
succeeds, and the value `GetLastError` reports. -/
structure OS where
  handle : Nat
  getOk : Bool
  processMask : Nat
  systemMask : Nat
  setOk : Bool
  lastError : Nat
deriving DecidableEq

/-- `set_processor_affinity` (lib.rs:134-186), returning the `io::Result` and
the ordered list of OS calls issued.  `OwnedHandle`'s `Drop` runs at every
return point and issues `closeHandle` exactly when `is_valid` holds; the
`!exclude` of lib.rs:165 is 64-bit complement, i.e. xor with `usize::MAX`. -/
def set_processor_affinity (os : OS) (exclude : Nat) : AffinityResult × List Event :=
  let handle : HANDLE := ⟨os.handle % TWO64⟩
  if !handle.is_valid then
    (.err ⟨.PermissionDenied, msgOpen os.lastError⟩, [.openProcess])
  else if !os.getOk then
    (.err ⟨.PermissionDenied, msgGet os.lastError⟩, [.openProcess, .getAffinity, .closeHandle])
  else
    let process_affinity_mask := os.processMask % TWO64
    -- lib.rs:161: if CPU 0 is already off, return Ok.
    if process_affinity_mask &&& 1 ≠ 1 then
      (.ok, [.openProcess, .getAffinity, .closeHandle])
    else
      let clear_mask := (exclude % TWO64) ^^^ MASK64
      let new_mask := process_affinity_mask &&& clear_mask
      if new_mask = 0 then
        (.err ⟨.PermissionDenied, msgOneCpu os.lastError⟩,
          [.openProcess, .getAffinity, .closeHandle])
      else if !os.setOk then
        (.err ⟨.PermissionDenied, msgSet os.lastError⟩,
          [.openProcess, .getAffinity, .setAffinity new_mask, .closeHandle])
      else
        (.ok, [.openProcess, .getAffinity, .setAffinity new_mask, .closeHandle])

/-- `get_exclude_mask` (lib.rs:106-113) under release-profile Rust semantics:
`1usize << p` masks the shift amount to the word width, so the bit set is
`p % 64`.  The accumulator never leaves `[0, 2 ^ 64)`. -/
def get_exclude_mask (exclude : List Nat) : Nat :=
  exclude.foldl (fun mask p => mask ||| 1 <<< (p % 64)) 0

/-- `get_exclude_mask` under debug-profile Rust semantics: `1usize << p` with
`p ≥ 64` is a shift-overflow diagnostic that aborts the computation, modelled
as `none`. -/
def get_exclude_mask_checked (exclude : List Nat) : Option Nat :=
  exclude.foldlM (fun mask p => if p < 64 then some (mask ||| 1 <<< p) else none) 0

/-- Whether an event is a `SetProcessAffinityMask` call. -/
def Event.isSet : Event → Bool
  | .setAffinity _ => true
  | _ => false

/-- The live OS process-affinity mask after a list of calls, starting from
`m`: only `SetProcessAffinityMask` calls change it. -/
def runEvents (m : Nat) (es : List Event) : Nat :=
  es.foldl (fun cur e => match e with | .setAffinity x => x | _ => cur) m

/-- The OS oracle as seen by a second `set_processor_affinity` invocation when
nothing external intervened: the process mask reflects any set call the first
invocation issued; everything else is unchanged. -/
def afterCall (os : OS) (exclude : Nat) : OS :=
  { os with processMask := runEvents os.processMask (set_processor_affinity os exclude).2 }

/-- `Config` (lib.rs:70-74). `delay` only feeds `Duration::from_secs_f64`. -/
structure Config where
  delay : Float
  exclude : List Nat

/-- `DLL_PROCESS_ATTACH` (lib.rs:16). -/
def DLL_PROCESS_ATTACH : Nat := 1

/-- `DLL_PROCESS_DETACH` (lib.rs:17). -/
def DLL_PROCESS_DETACH : Nat := 0

/-- Observable actions of `DllMain` on its own thread. -/
inductive DllEvent where
  | proxyInit
  | configRead
  | threadSpawn
deriving DecidableEq

/-- `DllMain` (lib.rs:78-104).  `proxyOk` is whether `init_proxy` succeeds and
`cfg` is the outcome of `read_config_file` (`none` = missing or malformed
file).  The returned indicator is `none` when the function diverges instead of
returning: both failure branches call `expect`, which unwinds out of the
`extern "stdcall"` frame and aborts the host process.  The spawned thread's
later outcome cannot influence the returned value, which is fixed before the
thread runs. -/
def DllMain (dwReason : Nat) (proxyOk : Bool) (cfg : Option Config) :
    Option Int × List DllEvent :=
  if dwReason = DLL_PROCESS_ATTACH then
    if !proxyOk then
      (none, [.proxyInit])
    else
      match cfg with
      | none => (none, [.proxyInit, .configRead])
      | some _ => (some 1, [.proxyInit, .configRead, .threadSpawn])
  else if dwReason = DLL_PROCESS_DETACH then
    (some 1, [])
  else
    (some 0, [])

/-! ## Helper lemmas -/

/-- Bit `i` of the `get_exclude_mask` fold is set iff it was set in the
accumulator or some element of the list lands on it (modulo the word width). -/
lemma testBit_foldl_or (l : List Nat) (a i : Nat) :
    (l.foldl (fun mask p => mask ||| 1 <<< (p % 64)) a).testBit i = true
      ↔ a.testBit i = true ∨ ∃ p ∈ l, p % 64 = i := by
  induction l generalizing a with
  | nil => simp
  | cons q l ih =>
    rw [List.foldl_cons, ih]
    simp only [Nat.testBit_or, Nat.one_shiftLeft, Nat.testBit_two_pow,
      Bool.or_eq_true, decide_eq_true_eq, List.mem_cons]
    constructor
    · rintro (⟨h | h⟩ | ⟨p, hp, hi⟩)
      · exact Or.inl h
      · exact Or.inr ⟨q, Or.inl rfl, h⟩
      · exact Or.inr ⟨p, Or.inr hp, hi⟩
    · rintro (h | ⟨p, rfl | hp, hi⟩)
      · exact Or.inl (Or.inl h)
      · exact Or.inl (Or.inr hi)
      · exact Or.inr ⟨p, hp, hi⟩

/-- On in-range indices the debug-profile fold succeeds and agrees with the
release-profile fold. -/
lemma foldlM_checked_eq (l : List Nat) (a : Nat) (hb : ∀ p ∈ l, p < 64) :
    l.foldlM (fun mask p => if p < 64 then some (mask ||| 1 <<< p) else none) a
      = some (l.foldl (fun mask p => mask ||| 1 <<< (p % 64)) a) := by
  induction l generalizing a with
  | nil => rfl
  | cons q l ih =>
    have hq : q < 64 := hb q (List.mem_cons_self q l)
    have hrest : ∀ p ∈ l, p < 64 := fun p hp => hb p (List.mem_cons_of_mem q hp)
    simp [List.foldlM, hq, Nat.mod_eq_of_lt hq, ih _ hrest]

/-- Two appended strings differ when their first components differ at a
character position inside both. -/
lemma append_ne_of_data_get (p q a b : String) (i : Nat)
    (hp : i < p.data.length) (hq : i < q.data.length)
    (hne : p.data[i]? ≠ q.data[i]?) : p ++ a ≠ q ++ b := by
  intro h
  apply hne
  have hd : (p ++ a).data = (q ++ b).data := by rw [h]
  rw [String.data_append, String.data_append] at hd
  have h1 : (p.data ++ a.data)[i]? = p.data[i]? := List.getElem?_append_left hp
  have h2 : (q.data ++ b.data)[i]? = q.data[i]? := List.getElem?_append_left hq
  rw [← h1, ← h2, hd]

/-! ## Branch characterizations of `set_processor_affinity` -/

/-- Run with an invalid handle: only the failed open, no release. -/
lemma run_invalid (os : OS) (exclude : Nat)
    (hv : HANDLE.is_valid ⟨os.handle % TWO64⟩ = false) :
    set_processor_affinity os exclude
      = (.err ⟨.PermissionDenied, msgOpen os.lastError⟩, [.openProcess]) := by
  simp [set_processor_affinity, hv]

/-- Run where the affinity query fails. -/
lemma run_getFail (os : OS) (exclude : Nat)
    (hv : HANDLE.is_valid ⟨os.handle % TWO64⟩ = true)
    (hg : os.getOk = false) :
    set_processor_affinity os exclude
      = (.err ⟨.PermissionDenied, msgGet os.lastError⟩,
         [.openProcess, .getAffinity, .closeHandle]) := by
  simp [set_processor_affinity, hv, hg]

/-- Run where guard A fires: bit 0 of the queried mask is clear. -/
lemma run_guardA (os : OS) (exclude : Nat)
    (hv : HANDLE.is_valid ⟨os.handle % TWO64⟩ = true)
    (hg : os.getOk = true)
    (hb : os.processMask % TWO64 % 2 = 0) :
    set_processor_affinity os exclude
      = (.ok, [.openProcess, .getAffinity, .closeHandle]) := by
  simp [set_processor_affinity, hv, hg, hb]

/-- Run where guard B fires: the computed new mask is zero. -/
lemma run_guardB (os : OS) (exclude : Nat)
    (hv : HANDLE.is_valid ⟨os.handle % TWO64⟩ = true)
    (hg : os.getOk = true)
    (hb : os.processMask % TWO64 % 2 = 1)
    (hz : (os.processMask % TWO64) &&& ((exclude % TWO64) ^^^ MASK64) = 0) :
    set_processor_affinity os exclude
      = (.err ⟨.PermissionDenied, msgOneCpu os.lastError⟩,
         [.openProcess, .getAffinity, .closeHandle]) := by
  simp [set_processor_affinity, hv, hg, hb, hz]

/-- Run that reaches the `SetProcessAffinityMask` call. -/
lemma run_set (os : OS) (exclude : Nat)
    (hv : HANDLE.is_valid ⟨os.handle % TWO64⟩ = true)
    (hg : os.getOk = true)
    (hb : os.processMask % TWO64 % 2 = 1)
    (hz : (os.processMask % TWO64) &&& ((exclude % TWO64) ^^^ MASK64) ≠ 0) :
    set_processor_affinity os exclude
      = ((if os.setOk then .ok else .err ⟨.PermissionDenied, msgSet os.lastError⟩),
         [.openProcess, .getAffinity,
          .setAffinity ((os.processMask % TWO64) &&& ((exclude % TWO64) ^^^ MASK64)),
          .closeHandle]) := by
  cases hs : os.setOk <;> simp [set_processor_affinity, hv, hg, hb, hz, hs]

/-! ## Claims -/

/-- Claim C1: when bit 0 of the queried process affinity mask is set and the
computed mask `process_affinity_mask AND (NOT exclusion_mask)` is nonzero,
`set_processor_affinity` issues exactly one `SetProcessAffinityMask` call and
its argument is exactly that computed mask.  (The particular instance of the
claim — exclusion mask for processors 1 and 2 against a current mask `0b0111`
applying `0b0001` — is the witness below.) -/
theorem claim_C1 (os : OS) (exclude : Nat)
    (hv : HANDLE.is_valid ⟨os.handle % TWO64⟩ = true)
    (hg : os.getOk = true)
    (hb : (os.processMask % TWO64) &&& 1 = 1)
    (hz : (os.processMask % TWO64) &&& ((exclude % TWO64) ^^^ MASK64) ≠ 0) :
    (set_processor_affinity os exclude).2.filter Event.isSet
      = [Event.setAffinity ((os.processMask % TWO64) &&& ((exclude % TWO64) ^^^ MASK64))] := by
  rw [Nat.and_one_is_mod] at hb
  rw [run_set os exclude hv hg hb hz]
  simp [Event.isSet]

/-- Witness for C1 at the spec's scenario 2: exclusion set `[1, 2]`
(mask `0b0110`), current process mask `0b0111`: the one set call carries
`0b0001`. -/
theorem claim_C1_witness :
    (set_processor_affinity ⟨1, true, 7, 7, true, 0⟩
        (get_exclude_mask [1, 2])).2.filter Event.isSet = [Event.setAffinity 1] := by
  have h := claim_C1 ⟨1, true, 7, 7, true, 0⟩ (get_exclude_mask [1, 2])
    (by decide) rfl (by decide) (by decide)
  exact h.trans (by decide)

/-- Claim C3: if bit 0 of the queried process affinity mask is clear,
`set_processor_affinity` returns success and issues no
`SetProcessAffinityMask` call. -/
theorem claim_C3 (os : OS) (exclude : Nat)
    (hv : HANDLE.is_valid ⟨os.handle % TWO64⟩ = true)
    (hg : os.getOk = true)
    (hb : (os.processMask % TWO64) &&& 1 = 0) :
    (set_processor_affinity os exclude).1 = .ok ∧
    (set_processor_affinity os exclude).2.filter Event.isSet = [] := by
  rw [Nat.and_one_is_mod] at hb
  rw [run_guardA os exclude hv hg hb]
  exact ⟨rfl, by simp [Event.isSet]⟩

/-- Witness for C3 at the spec's scenario 4: current mask `0b0110`, an
arbitrary exclusion mask `5`. -/
theorem claim_C3_witness :
    (set_processor_affinity ⟨1, true, 6, 7, true, 0⟩ 5).1 = .ok ∧
    (set_processor_affinity ⟨1, true, 6, 7, true, 0⟩ 5).2.filter Event.isSet = [] :=
  claim_C3 ⟨1, true, 6, 7, true, 0⟩ 5 (by decide) rfl (by decide)

/-- Claim C5: on every run of `set_processor_affinity`, the `OwnedHandle`
issues exactly one `CloseHandle` call iff the wrapped raw handle value is
neither `0` nor `usize::MAX` (`-1` as a pointer), and no `CloseHandle` call
otherwise. -/
theorem claim_C5 (os : OS) (exclude : Nat) :
    (set_processor_affinity os exclude).2.count Event.closeHandle
      = if os.handle % TWO64 ≠ 0 ∧ os.handle % TWO64 ≠ MASK64 then 1 else 0 := by
  by_cases hv : os.handle % TWO64 ≠ 0 ∧ os.handle % TWO64 ≠ MASK64
  · have hv2 : HANDLE.is_valid ⟨os.handle % TWO64⟩ = true := by
      simp [HANDLE.is_valid, hv.1, hv.2]
    rw [if_pos hv]
    cases hg : os.getOk with
    | false => rw [run_getFail os exclude hv2 hg]; rfl
    | true =>
      rcases Nat.mod_two_eq_zero_or_one (os.processMask % TWO64) with hb | hb
      · rw [run_guardA os exclude hv2 hg hb]; rfl
      · by_cases hz : (os.processMask % TWO64) &&& ((exclude % TWO64) ^^^ MASK64) = 0
        · rw [run_guardB os exclude hv2 hg hb hz]; rfl
        · rw [run_set os exclude hv2 hg hb hz]; rfl
  · have hv2 : HANDLE.is_valid ⟨os.handle % TWO64⟩ = false := by
      by_contra hc
      rw [Bool.not_eq_false] at hc
      simp only [HANDLE.is_valid, Bool.and_eq_true, bne_iff_ne, ne_eq] at hc
      exact hv ⟨hc.1, hc.2⟩
    rw [if_neg hv, run_invalid os exclude hv2]
    rfl

/-- Counterexample to C2 as stated: with queried process mask `0b0010` and
exclusion mask `0b0010`, the computed-new-mask formula is `0`, yet the call
returns success (guard A fires first, on the clear bit 0), not the
no-eligible-processors error the claim demands for every mask pair. -/
theorem claim_C2_counterexample :
    (2 % TWO64) &&& ((2 % TWO64) ^^^ MASK64) = 0 ∧
    (set_processor_affinity ⟨1, true, 2, 7, true, 0⟩ 2).1 = .ok := by decide

/-- Claim C2 amended: when bit 0 of the queried process affinity mask is set
(so guard A does not return early) and the computed new mask is `0`, the call
fails with the no-eligible-processors error and issues no
`SetProcessAffinityMask` call; and on every run whatsoever, a zero mask is
never passed to `SetProcessAffinityMask`. -/
theorem claim_C2_amended :
    (∀ (os : OS) (exclude : Nat),
        HANDLE.is_valid ⟨os.handle % TWO64⟩ = true → os.getOk = true →
        (os.processMask % TWO64) &&& 1 = 1 →
        (os.processMask % TWO64) &&& ((exclude % TWO64) ^^^ MASK64) = 0 →
        (set_processor_affinity os exclude).1
            = .err ⟨.PermissionDenied, msgOneCpu os.lastError⟩ ∧
        (set_processor_affinity os exclude).2.filter Event.isSet = []) ∧
    (∀ (os : OS) (exclude m : Nat),
        Event.setAffinity m ∈ (set_processor_affinity os exclude).2 → m ≠ 0) := by
  constructor
  · intro os exclude hv hg hb hz
    rw [Nat.and_one_is_mod] at hb
    rw [run_guardB os exclude hv hg hb hz]
    exact ⟨rfl, by simp [Event.isSet]⟩
  · intro os exclude m hm
    by_cases hv : HANDLE.is_valid ⟨os.handle % TWO64⟩ = true
    · cases hg : os.getOk with
      | false => rw [run_getFail os exclude hv hg] at hm; simp at hm
      | true =>
        rcases Nat.mod_two_eq_zero_or_one (os.processMask % TWO64) with hb | hb
        · rw [run_guardA os exclude hv hg hb] at hm; simp at hm
        · by_cases hz : (os.processMask % TWO64) &&& ((exclude % TWO64) ^^^ MASK64) = 0
          · rw [run_guardB os exclude hv hg hb hz] at hm; simp at hm
          · rw [run_set os exclude hv hg hb hz] at hm
            simp at hm
            rw [hm]
            exact hz
    · rw [Bool.not_eq_true] at hv
      rw [run_invalid os exclude hv] at hm
      simp at hm

/-- Witness for the amended C2 at the spec's scenario 3: exclusion mask
`0b0111` against current mask `0b0111`. -/
theorem claim_C2_witness :
    (set_processor_affinity ⟨1, true, 7, 7, true, 3⟩ 7).1
        = .err ⟨.PermissionDenied, msgOneCpu 3⟩ ∧
    (set_processor_affinity ⟨1, true, 7, 7, true, 3⟩ 7).2.filter Event.isSet = [] :=
  claim_C2_amended.1 ⟨1, true, 7, 7, true, 3⟩ 7 (by decide) rfl (by decide) (by decide)

/-- Counterexample to C4 as stated: for the set `S = \x7b64\x7d`, bit 64 of
`get_exclude_mask` is NOT set (the shift amount wraps at the 64-bit word
width), so the "bit i set iff i ∈ S" equivalence fails for every finite set
of indices. -/
theorem claim_C4_counterexample :
    64 ∈ [64] ∧ (get_exclude_mask [64]).testBit 64 = false := by decide

/-- Claim C4 amended: for index sequences whose members are all below the
word width 64, bit `i` of `get_exclude_mask` is set iff `i` is a member; the
result depends only on the membership set (not on order or multiplicity) for
all input sequences whatsoever; and the empty sequence yields `0`. -/
theorem claim_C4_amended :
    (∀ (l : List Nat), (∀ p ∈ l, p < 64) →
        ∀ i, (get_exclude_mask l).testBit i = true ↔ i ∈ l) ∧
    (∀ (l₁ l₂ : List Nat), (∀ p, p ∈ l₁ ↔ p ∈ l₂) →
        get_exclude_mask l₁ = get_exclude_mask l₂) ∧
    get_exclude_mask [] = 0 := by
  refine ⟨?_, ?_, rfl⟩
  · intro l hb i
    simp only [get_exclude_mask]
    rw [testBit_foldl_or]
    simp only [Nat.zero_testBit, Bool.false_eq_true, false_or]
    constructor
    · rintro ⟨p, hp, hi⟩
      rw [Nat.mod_eq_of_lt (hb p hp)] at hi
      exact hi ▸ hp
    · intro hi
      exact ⟨i, hi, Nat.mod_eq_of_lt (hb i hi)⟩
  · intro l₁ l₂ hmem
    apply Nat.eq_of_testBit_eq
    intro i
    rw [Bool.eq_iff_iff]
    simp only [get_exclude_mask]
    rw [testBit_foldl_or, testBit_foldl_or]
    simp only [Nat.zero_testBit, Bool.false_eq_true, false_or]
    constructor
    · rintro ⟨p, hp, hi⟩
      exact ⟨p, (hmem p).mp hp, hi⟩
    · rintro ⟨p, hp, hi⟩
      exact ⟨p, (hmem p).mpr hp, hi⟩

/-- Witness for the amended C4 on the in-range set `[1, 2]`. -/
theorem claim_C4_witness :
    ((get_exclude_mask [1, 2]).testBit 1 = true ↔ 1 ∈ [1, 2]) ∧
    get_exclude_mask [] = 0 :=
  ⟨claim_C4_amended.1 [1, 2] (by decide) 1, claim_C4_amended.2.2⟩

/-- Counterexample to C6 as stated: for the exclusion mask `0b0010` (processor
1 only, so processor 0 is not excluded), starting from process mask `0b0111`,
the second invocation is NOT a guard-A no-op — it issues a second
`SetProcessAffinityMask` call (with the unchanged mask `0b0101`). -/
theorem claim_C6_counterexample :
    (set_processor_affinity (afterCall ⟨1, true, 7, 7, true, 0⟩ 2) 2).2.filter Event.isSet
      = [Event.setAffinity 5] := by decide

/-- Claim C6 amended: for exclusion masks that include processor 0 (bit 0
set), invoking the operation twice with no intervening external change
performs the real mutation on the first call and is a guard-A no-op
(success, no `SetProcessAffinityMask` call) on the second; for exclusion
masks with bit 0 clear the claim fails (see the counterexample). -/
theorem claim_C6_amended (os : OS) (exclude : Nat)
    (hv : HANDLE.is_valid ⟨os.handle % TWO64⟩ = true)
    (hg : os.getOk = true)
    (hs : os.setOk = true)
    (hb : (os.processMask % TWO64) &&& 1 = 1)
    (he : exclude &&& 1 = 1)
    (hz : (os.processMask % TWO64) &&& ((exclude % TWO64) ^^^ MASK64) ≠ 0) :
    (set_processor_affinity os exclude).1 = .ok ∧
    Event.setAffinity ((os.processMask % TWO64) &&& ((exclude % TWO64) ^^^ MASK64))
        ∈ (set_processor_affinity os exclude).2 ∧
    (set_processor_affinity (afterCall os exclude) exclude).1 = .ok ∧
    (set_processor_affinity (afterCall os exclude) exclude).2.filter Event.isSet = [] := by
  rw [Nat.and_one_is_mod] at hb he
  have hrun := run_set os exclude hv hg hb hz
  rw [hs, if_pos rfl] at hrun
  -- the new mask has bit 0 clear, because the exclusion mask has bit 0 set
  have hdvd : (2 : Nat) ∣ TWO64 := by
    rw [TWO64]; exact dvd_pow_self 2 (by decide)
  have hx1 : (exclude % TWO64).testBit 0 = true := by
    rw [Nat.testBit_zero, Nat.mod_mod_of_dvd exclude hdvd, he]
    rfl
  have hclear : ((exclude % TWO64) ^^^ MASK64).testBit 0 = false := by
    rw [Nat.testBit_xor, hx1]
    have hM : MASK64.testBit 0 = true := by decide
    rw [hM]
    rfl
  have hN0 : ((os.processMask % TWO64) &&& ((exclude % TWO64) ^^^ MASK64)).testBit 0
      = false := by
    rw [Nat.testBit_and, hclear, Bool.and_false]
  have hN2 : ((os.processMask % TWO64) &&& ((exclude % TWO64) ^^^ MASK64)) % 2 = 0 := by
    have h := Nat.testBit_zero ((os.processMask % TWO64) &&& ((exclude % TWO64) ^^^ MASK64))
    rw [hN0] at h
    have := of_decide_eq_false h.symm
    omega
  have hNlt : (os.processMask % TWO64) &&& ((exclude % TWO64) ^^^ MASK64) < TWO64 := by
    refine lt_of_le_of_lt Nat.and_le_right ?_
    rw [TWO64]
    refine Nat.xor_lt_two_pow ?_ ?_
    · rw [← TWO64]
      exact Nat.mod_lt _ (by rw [TWO64]; exact Nat.pos_pow_of_pos 64 (by decide))
    · rw [MASK64]; omega
  have hpm2 : (afterCall os exclude).processMask
      = (os.processMask % TWO64) &&& ((exclude % TWO64) ^^^ MASK64) := by
    rw [afterCall, hrun]
    simp [runEvents]
  have hb2 : (afterCall os exclude).processMask % TWO64 % 2 = 0 := by
    rw [hpm2, Nat.mod_eq_of_lt hNlt, hN2]
  have hrun2 := run_guardA (afterCall os exclude) exclude hv hg hb2
  refine ⟨by rw [hrun], by rw [hrun]; simp, by rw [hrun2], by rw [hrun2]; simp [Event.isSet]⟩

/-- Witness for the amended C6: exclusion mask `0b0011` (processors 0 and 1)
against current mask `0b0111`: the first call applies `0b0100`, the second
returns via guard A with no set call. -/
theorem claim_C6_witness :
    (set_processor_affinity ⟨1, true, 7, 7, true, 0⟩ 3).1 = .ok ∧
    Event.setAffinity ((7 % TWO64) &&& ((3 % TWO64) ^^^ MASK64))
        ∈ (set_processor_affinity ⟨1, true, 7, 7, true, 0⟩ 3).2 ∧
    (set_processor_affinity (afterCall ⟨1, true, 7, 7, true, 0⟩ 3) 3).1 = .ok ∧
    (set_processor_affinity (afterCall ⟨1, true, 7, 7, true, 0⟩ 3) 3).2.filter Event.isSet
      = [] :=
  claim_C6_amended ⟨1, true, 7, 7, true, 0⟩ 3 (by decide) rfl rfl (by decide) (by decide)
    (by decide)

/-- Counterexample to C7 as stated: the out-of-range index 64 is NOT encoded
as a high bit — under release-profile semantics the shift amount wraps and
the index lands on bit 0, which does intersect a real affinity mask, and
under debug-profile semantics the shift is a failure (overflow diagnostic). -/
theorem claim_C7_counterexample :
    get_exclude_mask [64] = 1 ∧ (get_exclude_mask [64]).testBit 0 = true ∧
    get_exclude_mask_checked [64] = none := by decide

/-- Claim C7 amended: restricted to indices below the word width 64,
`get_exclude_mask` is pure and total with no failure mode (the debug-profile
and release-profile semantics agree), and indices at or above any processor
count `n` are encoded as bits `≥ n` that never intersect an affinity mask
whose bits all lie below `n`. -/
theorem claim_C7_amended (l : List Nat) (n m : Nat)
    (hb : ∀ p ∈ l, p < 64) (hn : ∀ p ∈ l, n ≤ p) (hm : m < 2 ^ n) :
    get_exclude_mask_checked l = some (get_exclude_mask l) ∧
    get_exclude_mask l &&& m = 0 := by
  refine ⟨foldlM_checked_eq l 0 hb, ?_⟩
  apply Nat.eq_of_testBit_eq
  intro i
  rw [Nat.testBit_and, Nat.zero_testBit]
  by_cases hi : i < n
  · have hfalse : (get_exclude_mask l).testBit i = false := by
      by_contra hc
      rw [Bool.not_eq_false] at hc
      simp only [get_exclude_mask] at hc
      rw [testBit_foldl_or] at hc
      rcases hc with hzero | ⟨p, hp, hpi⟩
      · simp at hzero
      · rw [Nat.mod_eq_of_lt (hb p hp)] at hpi
        have := hn p hp
        omega
    rw [hfalse, Bool.false_and]
  · have hmf : m.testBit i = false :=
      Nat.testBit_lt_two_pow
        (lt_of_lt_of_le hm (Nat.pow_le_pow_right (by decide) (le_of_not_lt hi)))
    rw [hmf, Bool.and_false]

/-- Witness for the amended C7: indices `[8, 9]` on an 8-processor host
(affinity masks below `2 ^ 8`): total, and disjoint from the mask `0xFF`. -/
theorem claim_C7_witness :
    get_exclude_mask_checked [8, 9] = some (get_exclude_mask [8, 9]) ∧
    get_exclude_mask [8, 9] &&& 255 = 0 :=
  claim_C7_amended [8, 9] 8 255 (by decide) (by decide) (by decide)

/-- Counterexample to C8 as stated: with the attach reason and a missing or
malformed configuration file, `DllMain` does not return the success
indicator — the `expect` on `read_config_file` diverges (modelled as `none`),
aborting the host's load. -/
theorem claim_C8_counterexample :
    (DllMain DLL_PROCESS_ATTACH true none).1 ≠ some 1 ∧
    (DllMain DLL_PROCESS_ATTACH true none).1 = none := by decide

/-- Claim C8 amended: with the attach reason, when proxy initialization and
the configuration read both succeed, `DllMain` returns the success indicator
`1` — this value is fixed before the background task runs and is independent
of whether the downstream affinity work succeeds (the OS oracle is not an
input of `DllMain` at all); but a missing or malformed configuration file
makes the entry point diverge instead of returning. -/
theorem claim_C8_amended (c : Config) :
    (DllMain DLL_PROCESS_ATTACH true (some c)).1 = some 1 ∧
    (DllMain DLL_PROCESS_ATTACH true none).1 = none :=
  ⟨rfl, rfl⟩

/-- Claim C9: every error value `set_processor_affinity` returns carries the
kind `PermissionDenied`, and the four failure messages are pairwise distinct
for all last-error codes — so the failure modes are distinguishable only by
message text, never by kind. -/
theorem claim_C9 :
    (∀ (os : OS) (exclude : Nat) (e : IoError),
        (set_processor_affinity os exclude).1 = .err e →
        e.kind = .PermissionDenied) ∧
    (∀ e₁ e₂ : Nat,
        msgOpen e₁ ≠ msgGet e₂ ∧ msgOpen e₁ ≠ msgOneCpu e₂ ∧
        msgOpen e₁ ≠ msgSet e₂ ∧ msgGet e₁ ≠ msgOneCpu e₂ ∧
        msgGet e₁ ≠ msgSet e₂ ∧ msgOneCpu e₁ ≠ msgSet e₂) := by
  constructor
  · intro os exclude e h
    by_cases hv : HANDLE.is_valid ⟨os.handle % TWO64⟩ = true
    · cases hg : os.getOk with
      | false =>
        rw [run_getFail os exclude hv hg] at h
        simp at h
        rw [← h]
      | true =>
        rcases Nat.mod_two_eq_zero_or_one (os.processMask % TWO64) with hb | hb
        · rw [run_guardA os exclude hv hg hb] at h
          simp at h
        · by_cases hz : (os.processMask % TWO64) &&& ((exclude % TWO64) ^^^ MASK64) = 0
          · rw [run_guardB os exclude hv hg hb hz] at h
            simp at h
            rw [← h]
          · rw [run_set os exclude hv hg hb hz] at h
            cases hs : os.setOk with
            | true => rw [hs, if_pos rfl] at h; simp at h
            | false =>
              rw [hs] at h
              rw [if_neg (by simp)] at h
              simp at h
              rw [← h]
    · rw [Bool.not_eq_true] at hv
      rw [run_invalid os exclude hv] at h
      simp at h
      rw [← h]
  · intro e₁ e₂
    exact ⟨append_ne_of_data_get _ _ _ _ 10 (by decide) (by decide) (by decide),
           append_ne_of_data_get _ _ _ _ 0 (by decide) (by decide) (by decide),
           append_ne_of_data_get _ _ _ _ 10 (by decide) (by decide) (by decide),
           append_ne_of_data_get _ _ _ _ 0 (by decide) (by decide) (by decide),
           append_ne_of_data_get _ _ _ _ 10 (by decide) (by decide) (by decide),
           append_ne_of_data_get _ _ _ _ 0 (by decide) (by decide) (by decide)⟩

/-- Witness for C9: the handle-acquisition failure at last-error `5` carries
kind `PermissionDenied`, and its message differs from the query-failure
message at the same code. -/
theorem claim_C9_witness :
    (⟨ErrorKind.PermissionDenied, msgOpen 5⟩ : IoError).kind
        = ErrorKind.PermissionDenied ∧
    msgOpen 3 ≠ msgGet 3 :=
  ⟨claim_C9.1 ⟨0, true, 7, 7, true, 5⟩ 0 ⟨.PermissionDenied, msgOpen 5⟩ (by decide),
   (claim_C9.2 3 3).1⟩

/-- Claim C10: for every reason code other than attach (1) and detach (0),
`DllMain` returns the failure indicator `0` with no work performed; for the
detach reason it returns the success indicator `1` with no work performed. -/
theorem claim_C10 :
    (∀ (r : Nat) (pk : Bool) (cfg : Option Config),
        r ≠ DLL_PROCESS_ATTACH → r ≠ DLL_PROCESS_DETACH →
        DllMain r pk cfg = (some 0, [])) ∧
    (∀ (pk : Bool) (cfg : Option Config),
        DllMain DLL_PROCESS_DETACH pk cfg = (some 1, [])) := by
  constructor
  · intro r pk cfg h1 h0
    rw [DllMain.eq_def, if_neg h1, if_neg h0]
  · intro pk cfg
    rfl

/-- Witness for C10 at the concrete reason code 7 (and detach). -/
theorem claim_C10_witness :
    DllMain 7 true none = (some 0, []) ∧
    DllMain DLL_PROCESS_DETACH true none = (some 1, []) :=
  ⟨claim_C10.1 7 true none (by decide) (by decide), claim_C10.2 true none⟩

end AffinityOpt

